import Mathlib

/-!
Shallow embedding of the test discovery and execution pipeline of the
hybrid M-Plane test runner (`testcases/discovery.py`, `testcases/base.py`).

Python classes become Lean structures; the side effects the claims are
about (hook invocation, logging, exceptions) are made explicit:
a callable that may raise is a `Hook` carrying an identity for the
execution trace and an `Except` outcome; a Python function that may
raise an exception becomes a Lean function into `Except String _`;
log output becomes an explicit list of `LogEvent`s.
-/

namespace HMP

/-- Result levels of `models.ResultType` as used by the runner. -/
inductive ResultType where
  | PASS
  | FAIL
deriving DecidableEq, Repr

/-- Criticality tags of `models.TestStatus` as used by the runner. -/
inductive TestStatus where
  | optional
  | conditionally_mandatory
  | mandatory
deriving DecidableEq, Repr

/-- Measurement units of `models.Units`; only `text` is used by the base class. -/
inductive Units where
  | text
deriving DecidableEq, Repr

/-- `models.Measurement`: a named, unit-tagged list of value strings. -/
structure Measurement where
  name : String
  values : List String
  units : Units
deriving DecidableEq, Repr

/-- `models.Metric`: description, ordered measurements, status and result. -/
structure Metric where
  description : String
  measurements : List Measurement
  status : TestStatus
  result : ResultType
deriving DecidableEq, Repr

/-- `models.TestCase` (the execution-result document node) restricted to the
fields the pipeline and the base-class constructor populate. -/
structure TCModel where
  number : String
  name : String
  description : String
  result : ResultType
  status : TestStatus
  metrics : List Metric
deriving DecidableEq, Repr

/-- `models.TestGroup`: the aggregation node produced by the pipeline's
`run_*` entry points (one level deep, leaves are `TCModel`s). -/
structure TestGroup where
  number : String
  name : String
  description : String
  groupItems : List TCModel
deriving DecidableEq, Repr

/-- A Python exception is modelled by its message. -/
abbrev Exc := String

/-- The controller object handed to test cases; `none` models Python `None`
(the pipeline itself passes the controller through unmodified, so its
payload is irrelevant and modelled by a `Nat`). -/
abbrev Ctrl := Option Nat

/-- A setup/teardown hook: a side-effecting callable that either returns
normally or raises.  `hid` is the callable's identity, used to record the
order in which hooks were invoked. -/
structure Hook where
  hid : Nat
  outcome : Except Exc Unit

/-- A log record at the level the runner emits (`logging.debug/warning/error`). -/
inductive LogEvent where
  | debug (msg : String)
  | warning (msg : String)
  | error (msg : String)
deriving DecidableEq, Repr

/-- Running a list of hooks with a bare Python `for` loop
(`for hook in hooks: hook()`, as in `TestSuite.run_setup_hooks`,
`TestSuite.run_teardown_hooks` and the global hook loops of
`TestExecutionPipeline.run_all_test_suites`): each hook is invoked in
order; a raising hook aborts the loop and its exception propagates.
Returns the trace of invoked hook identities and the loop's outcome. -/
def runHooks : List Hook → List Nat × Except Exc Unit
  | [] => ([], Except.ok ())
  | h :: hs =>
    match h.outcome with
    | Except.error e => ([h.hid], Except.error e)
    | Except.ok () =>
      let r := runHooks hs
      (h.hid :: r.1, r.2)

theorem runHooks_all_ok (hs : List Hook) (h : ∀ g ∈ hs, g.outcome = Except.ok ()) :
    runHooks hs = (hs.map Hook.hid, Except.ok ()) := by
  induction hs with
  | nil => rfl
  | cons a as ih =>
    have ha : a.outcome = Except.ok () := h a (List.mem_cons_self a as)
    have has : ∀ g ∈ as, g.outcome = Except.ok () :=
      fun g hg => h g (List.mem_cons_of_mem a hg)
    simp [runHooks, ha, ih has]

theorem runHooks_first_error (pre post : List Hook) (h : Hook) (e : Exc)
    (hpre : ∀ g ∈ pre, g.outcome = Except.ok ()) (he : h.outcome = Except.error e) :
    runHooks (pre ++ h :: post) = (pre.map Hook.hid ++ [h.hid], Except.error e) := by
  induction pre with
  | nil => simp [runHooks, he]
  | cons a as ih =>
    have ha : a.outcome = Except.ok () := hpre a (List.mem_cons_self a as)
    have has : ∀ g ∈ as, g.outcome = Except.ok () :=
      fun g hg => hpre g (List.mem_cons_of_mem a hg)
    simp [runHooks, ha, ih has]

/-- An instantiated test case object: its `number` attribute (the dotted
id string, set by the base constructor) and what its `run()` method does
(returns a result model or raises). -/
structure TCInstance where
  number : String
  runResult : Except Exc TCModel

/-- A test case class (a `Type[HybridMPlaneTestCase]`).  `cid` is the
class object's identity (Python classes compare by identity under `==`);
`construct` is what calling the class with a controller does: it either
returns an instance or raises (e.g. a constructor that dereferences a
`None` controller). -/
structure TestCaseClass where
  cid : Nat
  construct : Ctrl → Except Exc TCInstance

/-- `TestSuite` of `discovery.py`: name, description, ordered test case
classes, ordered setup and teardown hooks. -/
structure TestSuite where
  name : String
  description : String
  test_cases : List TestCaseClass
  setup_hooks : List Hook
  teardown_hooks : List Hook

/-- `TestSuite.add_test_case`: append unless already present
(`test_case_class not in self.test_cases`; Python class equality is
identity, modelled by `cid`). -/
def TestSuite.add_test_case (s : TestSuite) (c : TestCaseClass) : TestSuite :=
  if s.test_cases.any (fun x => x.cid = c.cid) then s
  else { s with test_cases := s.test_cases ++ [c] }

/-- `TestSuite.run_setup_hooks`: run the setup hooks in registration order
with a bare loop. -/
def TestSuite.run_setup_hooks (s : TestSuite) : List Nat × Except Exc Unit :=
  runHooks s.setup_hooks

/-- `TestSuite.run_teardown_hooks`: run the teardown hooks in registration
order with a bare loop (`for hook in self._teardown_hooks: hook()`; there
is no try/except around the call). -/
def TestSuite.run_teardown_hooks (s : TestSuite) : List Nat × Except Exc Unit :=
  runHooks s.teardown_hooks

/-- `TestExecutionPipeline.run_test_case`: instantiate the class with the
given controller and return `run()`'s result.  No exception is caught:
a raise from the constructor or from `run()` propagates to the caller. -/
def run_test_case (c : TestCaseClass) (ctrl : Ctrl) : Except Exc TCModel := do
  let inst ← c.construct ctrl
  inst.runResult

/-- Python `s.split('.')[0]`: the characters of `s` before the first dot. -/
def leadingSegment (s : String) : String :=
  String.mk (s.toList.takeWhile (fun c => c ≠ '.'))

/-- The group-number derivation shared by `run_test_suite`,
`run_test_cases_by_category` and `run_selected_test_cases`: default `"0"`;
for a non-empty class list, instantiate the first class with a `None`
controller inside a try/except and take the leading dotted segment of its
`number`; on any exception log a warning and keep `"0"`.  Total by
construction, mirroring the catch-all `except`. -/
def derive_group_number (cs : List TestCaseClass) : String × List LogEvent :=
  match cs with
  | [] => ("0", [])
  | c :: _ =>
    match c.construct none with
    | Except.error e =>
      ("0", [LogEvent.warning ("Failed to create temporary instance: " ++ e)])
    | Except.ok inst => (leadingSegment inst.number, [])

/-- The case loop of `run_test_suite`: run each class via `run_test_case`,
appending results; a raise aborts the loop.  Returns the identities of the
classes that were invoked, the results collected so far, and the loop's
outcome. -/
def runCases : List TestCaseClass → Ctrl → List Nat × List TCModel × Except Exc Unit
  | [], _ => ([], [], Except.ok ())
  | c :: rest, ctrl =>
    match run_test_case c ctrl with
    | Except.error e => ([c.cid], [], Except.error e)
    | Except.ok r =>
      let t := runCases rest ctrl
      (c.cid :: t.1, r :: t.2.1, t.2.2)

/-- The observable behaviour of one `run_test_suite` call: which setup
hooks ran, which test case classes were invoked, which teardown hooks ran,
and the call's outcome (the built `TestGroup`, or the propagated
exception). -/
structure SuiteRun where
  setupExecuted : List Nat
  casesExecuted : List Nat
  caseResults : List TCModel
  teardownExecuted : List Nat
  outcome : Except Exc TestGroup

/-- `TestExecutionPipeline.run_test_suite`: setup hooks and the case loop
inside `try`, teardown hooks in `finally` (so they run on every exit
path); per Python semantics an exception raised by the `finally` block
replaces the in-flight exception.  On normal completion a `TestGroup` is
built with the derived group number, the suite's name and description,
and the collected results. -/
def run_test_suite (s : TestSuite) (ctrl : Ctrl) : SuiteRun :=
  let su := runHooks s.setup_hooks
  let body :=
    match su.2 with
    | Except.error e => (([] : List Nat), ([] : List TCModel), Except.error e)
    | Except.ok () => runCases s.test_cases ctrl
  let td := runHooks s.teardown_hooks
  let outcome : Except Exc TestGroup :=
    match td.2 with
    | Except.error e => Except.error e
    | Except.ok () =>
      match body.2.2 with
      | Except.error e => Except.error e
      | Except.ok () =>
        Except.ok
          { number := (derive_group_number s.test_cases).1
            name := s.name
            description := s.description
            groupItems := body.2.1 }
  { setupExecuted := su.1
    casesExecuted := body.1
    caseResults := body.2.1
    teardownExecuted := td.1
    outcome := outcome }

/-- The Registry id map of `TestDiscovery` (`self._test_cases`), a Python
dict in insertion order; the value is the registered class's identity. -/
abbrev IdMap := List (String × Nat)

/-- Python dict assignment `m[k] = v`: replace the value in place if the
key exists, otherwise append the new entry. -/
def dictInsert (m : IdMap) (k : String) (v : Nat) : IdMap :=
  if m.any (fun p => p.1 = k) then
    m.map (fun p => if p.1 = k then (k, v) else p)
  else m ++ [(k, v)]

/-- Python dict lookup `m.get(k)`: the value at the first (and, keys
being unique, only) entry with the given key. -/
def dlookup : IdMap → String → Option Nat
  | [], _ => none
  | p :: rest, k => if p.1 = k then some p.2 else dlookup rest k

/-- The id-map registration step of `TestDiscovery.discover_test_cases`
for each discovered (id, class) pair, in discovery order:
`self._test_cases[tc_id] = obj` followed by a debug-level log line.
No collision check and no warning is present in this loop. -/
def registerCases : IdMap → List (String × Nat) → IdMap × List LogEvent
  | m, [] => (m, [])
  | m, (k, v) :: rest =>
    let t := registerCases (dictInsert m k v) rest
    (t.1, LogEvent.debug ("Discovered test case: " ++ k) :: t.2)

/-- `discover_test_cases` restricted to the id map: register every
discovered (id, class) pair into an initially empty map. -/
def discover_register (regs : List (String × Nat)) : IdMap × List LogEvent :=
  registerCases [] regs

/-- Specification-side helper: the value of the last registration of key
`k` in a registration sequence, if any. -/
def lastVal : List (String × Nat) → String → Option Nat
  | [], _ => none
  | (k0, v0) :: rest, k =>
    match lastVal rest k with
    | some v => some v
    | none => if k0 = k then some v0 else none

/-- Whether a log event is warning-level. -/
def LogEvent.isWarning : LogEvent → Bool
  | LogEvent.warning _ => true
  | _ => false

/-- The Registry that `run_selected_test_cases` resolves ids against:
the id map with its classes, in insertion order. -/
abbrev Registry := List (String × TestCaseClass)

/-- `TestDiscovery.get_test_case`: dictionary lookup by id. -/
def get_test_case : Registry → String → Option TestCaseClass
  | [], _ => none
  | p :: rest, tc_id => if p.1 = tc_id then some p.2 else get_test_case rest tc_id

/-- The warning `run_selected_test_cases` logs for an id with no match. -/
def notFoundWarning (tc_id : String) : LogEvent :=
  LogEvent.warning ("Test case with ID " ++ tc_id ++ " not found")

/-- The selection loop of `run_selected_test_cases`: for each requested id
in order, resolve via `get_test_case`; a match is appended to the class
list and run via `run_test_case` (a raise propagates, aborting the loop);
a miss logs a warning and is skipped.  Returns the log, the resolved
classes, the collected results, and the loop's outcome. -/
def selectLoop (reg : Registry) (ctrl : Ctrl) :
    List String → List LogEvent × List TestCaseClass × List TCModel × Except Exc Unit
  | [] => ([], [], [], Except.ok ())
  | i :: rest =>
    match get_test_case reg i with
    | none =>
      let t := selectLoop reg ctrl rest
      (notFoundWarning i :: t.1, t.2)
    | some c =>
      match run_test_case c ctrl with
      | Except.error e => ([], [c], [], Except.error e)
      | Except.ok r =>
        let t := selectLoop reg ctrl rest
        (t.1, c :: t.2.1, r :: t.2.2.1, t.2.2.2)

/-- `TestExecutionPipeline.run_selected_test_cases`: run the selection
loop, then build a TestGroup named "Selected Test Cases" whose number is
derived from the first resolved class and whose items are the collected
results.  Returns the emitted log and the outcome. -/
def run_selected_test_cases (reg : Registry) (ids : List String) (ctrl : Ctrl) :
    List LogEvent × Except Exc TestGroup :=
  let t := selectLoop reg ctrl ids
  match t.2.2.2 with
  | Except.error e => (t.1, Except.error e)
  | Except.ok () =>
    let d := derive_group_number t.2.1
    (t.1 ++ d.2,
     Except.ok
       { number := d.1
         name := "Selected Test Cases"
         description := "Test cases with IDs: " ++ String.intercalate ", " ids
         groupItems := t.2.2.1 })

/-- The observable behaviour of one `run_all_test_suites` call. -/
structure AllRun where
  globalSetupExecuted : List Nat
  suitesExecuted : List String
  globalTeardownExecuted : List Nat
  outcome : Except Exc (List TestGroup)

/-- The suite loop of `run_all_test_suites`: run each suite via
`run_test_suite` in order, collecting the TestGroups; an exception
escaping a suite aborts the loop.  Returns the names of the suites that
were invoked, the groups collected, and the loop's outcome. -/
def runSuitesLoop : List TestSuite → Ctrl → List String × List TestGroup × Except Exc Unit
  | [], _ => ([], [], Except.ok ())
  | s :: rest, ctrl =>
    match (run_test_suite s ctrl).outcome with
    | Except.error e => ([s.name], [], Except.error e)
    | Except.ok g =>
      let t := runSuitesLoop rest ctrl
      (s.name :: t.1, g :: t.2.1, t.2.2)

/-- `TestExecutionPipeline.run_all_test_suites`: global setup hooks and
the suite loop inside `try`, global teardown hooks in `finally` (they run
on every exit path; an exception raised in `finally` replaces the
in-flight one).  `suites` is `self._discovery._test_suites.items()` in
dict insertion order. -/
def run_all_test_suites (suites : List TestSuite) (gsetup gteardown : List Hook)
    (ctrl : Ctrl) : AllRun :=
  let su := runHooks gsetup
  let body :=
    match su.2 with
    | Except.error e => (([] : List String), ([] : List TestGroup), Except.error e)
    | Except.ok () => runSuitesLoop suites ctrl
  let td := runHooks gteardown
  let outcome : Except Exc (List TestGroup) :=
    match td.2 with
    | Except.error e => Except.error e
    | Except.ok () =>
      match body.2.2 with
      | Except.error e => Except.error e
      | Except.ok () => Except.ok body.2.1
  { globalSetupExecuted := su.1
    suitesExecuted := body.1
    globalTeardownExecuted := td.1
    outcome := outcome }

/-- The state a `HybridMPlaneTestCase.__init__` call leaves on the new
object: the identification attributes, the freshly built `tc_model`, and
the stored controller. -/
structure HybridTestCaseState where
  number : String
  name : String
  description : String
  tc_model : TCModel
  controller : Ctrl
deriving Repr

/-- `HybridMPlaneTestCase.__init__` (`testcases/base.py`): build a
default `tc_model` with result FAIL, status optional and a single
"Generic metric" (itself FAIL/optional with one "Generic measurement" of
values `["None"]` and unit text; `models.Measurements` wraps a plain
list, flattened here), then store the controller as given, without any
validation. -/
def HybridMPlaneTestCase_init (number name description : String)
    (controller : Ctrl) : HybridTestCaseState :=
  let metrics : List Metric :=
    [{ description := "Generic metric"
       measurements :=
         [{ name := "Generic measurement", values := ["None"], units := Units.text }]
       status := TestStatus.optional
       result := ResultType.FAIL }]
  { number := number
    name := name
    description := description
    tc_model :=
      { number := number
        name := name
        description := description
        result := ResultType.FAIL
        status := TestStatus.optional
        metrics := metrics }
    controller := controller }

/-! ## Supporting lemmas -/

theorem dictInsert_of_mem (m : IdMap) (k : String) (v : Nat)
    (h : m.any (fun p => p.1 = k) = true) :
    dictInsert m k v = m.map (fun p => if p.1 = k then (k, v) else p) := by
  simp [dictInsert, h]

theorem dictInsert_of_not_mem (m : IdMap) (k : String) (v : Nat)
    (h : m.any (fun p => p.1 = k) = false) :
    dictInsert m k v = m ++ [(k, v)] := by
  simp [dictInsert, h]

theorem dlookup_mapReplace_self (m : IdMap) (k : String) (v : Nat)
    (h : m.any (fun p => p.1 = k) = true) :
    dlookup (m.map (fun p => if p.1 = k then (k, v) else p)) k = some v := by
  induction m with
  | nil => simp at h
  | cons a t ih =>
    by_cases h1 : a.1 = k
    · simp [dlookup, h1]
    · have h2 : t.any (fun p => p.1 = k) = true := by
        simpa [List.any_cons, h1] using h
      simp [dlookup, h1, ih h2]

theorem dlookup_mapReplace_ne (m : IdMap) (k : String) (v : Nat) (q : String)
    (hq : q ≠ k) :
    dlookup (m.map (fun p => if p.1 = k then (k, v) else p)) q = dlookup m q := by
  induction m with
  | nil => rfl
  | cons a t ih =>
    by_cases h1 : a.1 = k
    · simp [dlookup, h1, Ne.symm hq, ih]
    · simp [dlookup, h1, ih]

theorem dlookup_append_single (m : IdMap) (k : String) (v : Nat) (q : String) :
    dlookup (m ++ [(k, v)]) q
      = match dlookup m q with
        | some w => some w
        | none => if k = q then some v else none := by
  induction m with
  | nil => simp [dlookup]
  | cons a t ih =>
    by_cases h1 : a.1 = q
    · simp [dlookup, h1]
    · simp [dlookup, h1, ih]

theorem dlookup_eq_none_of_any_false (m : IdMap) (k : String)
    (h : m.any (fun p => p.1 = k) = false) :
    dlookup m k = none := by
  induction m with
  | nil => rfl
  | cons a t ih =>
    simp only [List.any_cons, Bool.or_eq_false_iff] at h
    have h1 : a.1 ≠ k := by simpa using h.1
    simp [dlookup, h1, ih h.2]

theorem dlookup_dictInsert_self (m : IdMap) (k : String) (v : Nat) :
    dlookup (dictInsert m k v) k = some v := by
  by_cases h : m.any (fun p => p.1 = k) = true
  · rw [dictInsert_of_mem m k v h]
    exact dlookup_mapReplace_self m k v h
  · have h' : m.any (fun p => p.1 = k) = false := by
      rcases Bool.eq_false_or_eq_true (m.any fun p => p.1 = k) with hb | hb
      · exact absurd hb h
      · exact hb
    rw [dictInsert_of_not_mem m k v h', dlookup_append_single,
        dlookup_eq_none_of_any_false m k h']
    simp

theorem dlookup_dictInsert_ne (m : IdMap) (k : String) (v : Nat) (q : String)
    (hq : q ≠ k) :
    dlookup (dictInsert m k v) q = dlookup m q := by
  by_cases h : m.any (fun p => p.1 = k) = true
  · rw [dictInsert_of_mem m k v h]
    exact dlookup_mapReplace_ne m k v q hq
  · have h' : m.any (fun p => p.1 = k) = false := by
      rcases Bool.eq_false_or_eq_true (m.any fun p => p.1 = k) with hb | hb
      · exact absurd hb h
      · exact hb
    rw [dictInsert_of_not_mem m k v h', dlookup_append_single]
    cases hdl : dlookup m q with
    | some w => rfl
    | none => simp [Ne.symm hq]

theorem keys_dictInsert_of_mem (m : IdMap) (k : String) (v : Nat)
    (h : m.any (fun p => p.1 = k) = true) :
    (dictInsert m k v).map Prod.fst = m.map Prod.fst := by
  rw [dictInsert_of_mem m k v h, List.map_map]
  apply List.map_congr_left
  intro p hp
  by_cases h1 : p.1 = k
  · simp [h1]
  · simp [h1]

theorem nodup_keys_dictInsert (m : IdMap) (k : String) (v : Nat)
    (h : (m.map Prod.fst).Nodup) :
    ((dictInsert m k v).map Prod.fst).Nodup := by
  by_cases hm : m.any (fun p => p.1 = k) = true
  · rw [keys_dictInsert_of_mem m k v hm]
    exact h
  · have h' : m.any (fun p => p.1 = k) = false := by
      rcases Bool.eq_false_or_eq_true (m.any fun p => p.1 = k) with hb | hb
      · exact absurd hb hm
      · exact hb
    rw [dictInsert_of_not_mem m k v h']
    simp only [List.map_append, List.map_cons, List.map_nil]
    rw [List.nodup_append]
    refine ⟨h, List.nodup_singleton _, ?_⟩
    intro a ha hb
    simp only [List.mem_singleton] at hb
    subst hb
    rcases List.mem_map.mp ha with ⟨p, hp, hpk⟩
    exact hm (List.any_eq_true.mpr ⟨p, hp, decide_eq_true hpk⟩)

theorem registerCases_lookup (regs : List (String × Nat)) :
    ∀ m q, dlookup (registerCases m regs).1 q
      = match lastVal regs q with
        | some v => some v
        | none => dlookup m q := by
  induction regs with
  | nil => intro m q; rfl
  | cons a rest ih =>
    intro m q
    obtain ⟨k0, v0⟩ := a
    show dlookup (registerCases (dictInsert m k0 v0) rest).1 q = _
    rw [ih]
    cases hlv : lastVal rest q with
    | some v => simp [lastVal, hlv]
    | none =>
      simp only [lastVal, hlv]
      by_cases hq : k0 = q
      · subst hq
        simp [dlookup_dictInsert_self]
      · simp [hq, dlookup_dictInsert_ne m k0 v0 q (Ne.symm hq)]

theorem registerCases_nodup (regs : List (String × Nat)) :
    ∀ m, (m.map Prod.fst).Nodup → (((registerCases m regs).1).map Prod.fst).Nodup := by
  induction regs with
  | nil => intro m h; exact h
  | cons a rest ih =>
    intro m h
    obtain ⟨k0, v0⟩ := a
    exact ih (dictInsert m k0 v0) (nodup_keys_dictInsert m k0 v0 h)

theorem registerCases_log (regs : List (String × Nat)) :
    ∀ m, (registerCases m regs).2
      = regs.map (fun p => LogEvent.debug ("Discovered test case: " ++ p.1)) := by
  induction regs with
  | nil => intro m; rfl
  | cons a rest ih =>
    intro m
    obtain ⟨k0, v0⟩ := a
    show LogEvent.debug ("Discovered test case: " ++ k0)
        :: (registerCases (dictInsert m k0 v0) rest).2 = _
    rw [ih]
    rfl

theorem run_test_suite_ok_number (s : TestSuite) (ctrl : Ctrl) (g : TestGroup)
    (hg : (run_test_suite s ctrl).outcome = Except.ok g) :
    g.number = (derive_group_number s.test_cases).1 := by
  unfold run_test_suite at hg
  simp only at hg
  split at hg
  · exact absurd hg (by simp)
  · split at hg
    · exact absurd hg (by simp)
    · rw [← Except.ok.inj hg]

/-! ## Claims -/

/-- C1, as stated, is false on the code: `run_teardown_hooks` is a bare
loop with no try/except, so a raising teardown hook short-circuits the
remaining hooks and its exception propagates to the caller.  Concrete
counterexample: two registered teardown hooks where the first raises; the
execution trace contains only the first hook and the call raises, so the
second hook never executes, nothing is logged, and the caller is blocked. -/
theorem C1_teardown_counterexample :
    TestSuite.run_teardown_hooks
        { name := "S"
          description := ""
          test_cases := []
          setup_hooks := []
          teardown_hooks := [⟨1, Except.error "boom"⟩, ⟨2, Except.ok ()⟩] }
      = ([1], Except.error "boom") := rfl

/-- C1 (amended): `run_teardown_hooks` invokes the teardown hooks in
registration order; when every hook returns normally all of them execute,
but if a hook raises, its exception propagates immediately to the caller
(unlogged) and the remaining teardown hooks do not execute. -/
theorem C1_teardown_order_and_short_circuit (s : TestSuite) :
    ((∀ g ∈ s.teardown_hooks, g.outcome = Except.ok ()) →
      s.run_teardown_hooks = (s.teardown_hooks.map Hook.hid, Except.ok ())) ∧
    (∀ pre h post e, s.teardown_hooks = pre ++ h :: post →
      (∀ g ∈ pre, g.outcome = Except.ok ()) → h.outcome = Except.error e →
      s.run_teardown_hooks = (pre.map Hook.hid ++ [h.hid], Except.error e)) := by
  constructor
  · intro h
    rw [TestSuite.run_teardown_hooks, runHooks_all_ok s.teardown_hooks h]
  · intro pre h post e hdec hpre he
    rw [TestSuite.run_teardown_hooks, hdec, runHooks_first_error pre post h e hpre he]

/-- Witness for C1 (amended) at a concrete suite: one passing hook before
a raising one, one hook after; only the first two execute. -/
theorem C1_teardown_witness :
    TestSuite.run_teardown_hooks
        { name := "T"
          description := ""
          test_cases := []
          setup_hooks := []
          teardown_hooks := [⟨3, Except.ok ()⟩, ⟨4, Except.error "late"⟩, ⟨5, Except.ok ()⟩] }
      = ([3, 4], Except.error "late") := by
  exact (C1_teardown_order_and_short_circuit _).2
    [⟨3, Except.ok ()⟩] ⟨4, Except.error "late"⟩ [⟨5, Except.ok ()⟩] "late"
    rfl (by intro g hg; simp at hg; rw [hg]) rfl

/-- C2: whenever `run_test_suite` returns a TestGroup, its number is the
leading dotted segment of the `number` of the first contained test case
class (instantiated with a `None` controller), `"0"` for an empty case
list, and `"0"` when the instantiation raises; the derivation is a total
function (the catch-all `except` makes it incapable of raising). -/
theorem C2_group_number (s : TestSuite) (ctrl : Ctrl) (g : TestGroup)
    (hg : (run_test_suite s ctrl).outcome = Except.ok g) :
    (s.test_cases = [] → g.number = "0") ∧
    (∀ c rest inst, s.test_cases = c :: rest → c.construct none = Except.ok inst →
      g.number = leadingSegment inst.number) ∧
    (∀ c rest e, s.test_cases = c :: rest → c.construct none = Except.error e →
      g.number = "0") := by
  have hnum := run_test_suite_ok_number s ctrl g hg
  refine ⟨fun h => ?_, fun c rest inst h hc => ?_, fun c rest e h hc => ?_⟩
  · rw [hnum, h]; rfl
  · rw [hnum, h]; simp [derive_group_number, hc]
  · rw [hnum, h]; simp [derive_group_number, hc]

/-- Fixture for the C2 witness: the spec's example suite with case ids
"004" and "004.2", both running to PASS models. -/
def model004 : TCModel :=
  ⟨"004", "TC004", "", ResultType.PASS, TestStatus.mandatory, []⟩

def model004_2 : TCModel :=
  ⟨"004.2", "TC004.2", "", ResultType.PASS, TestStatus.mandatory, []⟩

def case004 : TestCaseClass :=
  ⟨41, fun _ => Except.ok ⟨"004", Except.ok model004⟩⟩

def case004_2 : TestCaseClass :=
  ⟨42, fun _ => Except.ok ⟨"004.2", Except.ok model004_2⟩⟩

def suite004 : TestSuite :=
  ⟨"Default", "", [case004, case004_2], [], []⟩

def group004 : TestGroup :=
  ⟨"004", "Default", "", [model004, model004_2]⟩

/-- Witness for C2 at the spec's example: a suite whose cases have ids
"004" and "004.2" yields group number "004". -/
theorem C2_group_number_witness :
    (run_test_suite suite004 none).outcome = Except.ok group004 ∧
      group004.number = "004" := by
  have hok : (run_test_suite suite004 none).outcome = Except.ok group004 := rfl
  have h := (C2_group_number suite004 none group004 hok).2.1
    case004 [case004_2] ⟨"004", Except.ok model004⟩ rfl rfl
  exact ⟨hok, h.trans rfl⟩

/-- C3: if a setup hook raises (all setup hooks before it returning
normally) and the teardown hooks themselves return normally, then
`run_test_suite` invokes no test case, still runs every teardown hook
exactly once in registration order, and the setup exception propagates to
the caller after teardown. -/
theorem C3_setup_failure_teardown_still_runs (s : TestSuite) (ctrl : Ctrl)
    (pre post : List Hook) (h : Hook) (e : Exc)
    (hdec : s.setup_hooks = pre ++ h :: post)
    (hpre : ∀ g ∈ pre, g.outcome = Except.ok ())
    (he : h.outcome = Except.error e)
    (htd : ∀ g ∈ s.teardown_hooks, g.outcome = Except.ok ()) :
    (run_test_suite s ctrl).casesExecuted = [] ∧
    (run_test_suite s ctrl).teardownExecuted = s.teardown_hooks.map Hook.hid ∧
    (run_test_suite s ctrl).outcome = Except.error e := by
  have hsu : runHooks s.setup_hooks = (pre.map Hook.hid ++ [h.hid], Except.error e) := by
    rw [hdec]; exact runHooks_first_error pre post h e hpre he
  have htd' : runHooks s.teardown_hooks = (s.teardown_hooks.map Hook.hid, Except.ok ()) :=
    runHooks_all_ok _ htd
  refine ⟨?_, ?_, ?_⟩ <;> simp [run_test_suite, hsu, htd']

/-- Witness for C3 at a concrete suite: the second of two setup hooks
raises; the contained test case is never invoked, both teardown hooks run
in order, and the setup exception reaches the caller. -/
theorem C3_setup_failure_witness :
    (run_test_suite
        { name := "S3"
          description := ""
          test_cases := [⟨6, fun _ => Except.ok ⟨"001",
              Except.ok ⟨"001", "TC001", "", ResultType.PASS, TestStatus.mandatory, []⟩⟩⟩]
          setup_hooks := [⟨1, Except.ok ()⟩, ⟨2, Except.error "setup boom"⟩]
          teardown_hooks := [⟨3, Except.ok ()⟩, ⟨4, Except.ok ()⟩] } none).casesExecuted = [] ∧
    (run_test_suite
        { name := "S3"
          description := ""
          test_cases := [⟨6, fun _ => Except.ok ⟨"001",
              Except.ok ⟨"001", "TC001", "", ResultType.PASS, TestStatus.mandatory, []⟩⟩⟩]
          setup_hooks := [⟨1, Except.ok ()⟩, ⟨2, Except.error "setup boom"⟩]
          teardown_hooks := [⟨3, Except.ok ()⟩, ⟨4, Except.ok ()⟩] } none).teardownExecuted
      = [3, 4] ∧
    (run_test_suite
        { name := "S3"
          description := ""
          test_cases := [⟨6, fun _ => Except.ok ⟨"001",
              Except.ok ⟨"001", "TC001", "", ResultType.PASS, TestStatus.mandatory, []⟩⟩⟩]
          setup_hooks := [⟨1, Except.ok ()⟩, ⟨2, Except.error "setup boom"⟩]
          teardown_hooks := [⟨3, Except.ok ()⟩, ⟨4, Except.ok ()⟩] } none).outcome
      = Except.error "setup boom" := by
  exact C3_setup_failure_teardown_still_runs _ none
    [⟨1, Except.ok ()⟩] [] ⟨2, Except.error "setup boom"⟩ "setup boom"
    rfl (by intro g hg; fin_cases hg; rfl) rfl
    (by intro g hg; fin_cases hg; all_goals rfl)

/-- C4, as stated, is false on the code: the discovery loop's id-map
registration (`self._test_cases[tc_id] = obj`) silently overwrites on a
colliding id and logs only a debug-level discovery message — no warning
is emitted.  Concrete counterexample: registering classes 1 and 2 under
the same id "001" leaves a single entry with the last class, and the
discovery log holds two debug events and no warning. -/
theorem C4_collision_counterexample :
    discover_register [("001", 1), ("001", 2)]
      = ([("001", 2)],
         [LogEvent.debug "Discovered test case: 001",
          LogEvent.debug "Discovered test case: 001"]) ∧
    ((discover_register [("001", 1), ("001", 2)]).2.filter LogEvent.isWarning) = [] := by
  exact ⟨rfl, rfl⟩

/-- C4 (amended): after discovery, every discovered test case id is
present exactly once as a key of the id map (the keys are
duplicate-free), the last registration for a given id wins, and a
collision is silent and non-fatal: registration is total and logs only
debug-level messages, never a warning. -/
theorem C4_id_map_last_registration_wins (regs : List (String × Nat)) :
    (((discover_register regs).1).map Prod.fst).Nodup ∧
    (∀ q, dlookup (discover_register regs).1 q = lastVal regs q) ∧
    (discover_register regs).2
      = regs.map (fun p => LogEvent.debug ("Discovered test case: " ++ p.1)) := by
  refine ⟨registerCases_nodup regs [] List.nodup_nil, fun q => ?_, registerCases_log regs []⟩
  rw [discover_register, registerCases_lookup regs [] q]
  cases lastVal regs q with
  | some v => rfl
  | none => rfl

/-- C5: `run_test_case` instantiates the class with the given controller
and returns `run()`'s result; it catches nothing, so an exception raised
by the constructor or by `run()` propagates unmodified to the caller, and
a normal result is returned as is. -/
theorem C5_run_test_case_propagates (c : TestCaseClass) (ctrl : Ctrl) :
    (∀ e, c.construct ctrl = Except.error e → run_test_case c ctrl = Except.error e) ∧
    (∀ inst e, c.construct ctrl = Except.ok inst → inst.runResult = Except.error e →
      run_test_case c ctrl = Except.error e) ∧
    (∀ inst r, c.construct ctrl = Except.ok inst → inst.runResult = Except.ok r →
      run_test_case c ctrl = Except.ok r) := by
  refine ⟨fun e he => ?_, fun inst e hc hr => ?_, fun inst r hc hr => ?_⟩ <;>
    simp [run_test_case, bind, Except.bind, *]

/-- Witness for C5 at a concrete class whose `run()` raises: the
exception reaches the caller of `run_test_case` unmodified. -/
theorem C5_run_test_case_witness :
    run_test_case ⟨7, fun _ => Except.ok ⟨"001", Except.error "kaboom"⟩⟩ none
      = Except.error "kaboom" :=
  (C5_run_test_case_propagates ⟨7, fun _ => Except.ok ⟨"001", Except.error "kaboom"⟩⟩ none).2.1
    ⟨"001", Except.error "kaboom"⟩ "kaboom" rfl rfl

/-- C9: `add_test_case` is idempotent by class identity: adding a class
already contained leaves the suite unchanged; adding a new class appends
it at the end; hence class identities stay duplicate-free in
first-insertion order. -/
theorem C9_add_test_case_idempotent (s : TestSuite) (c : TestCaseClass) :
    (s.test_cases.any (fun x => x.cid = c.cid) = true → s.add_test_case c = s) ∧
    (s.test_cases.any (fun x => x.cid = c.cid) = false →
      (s.add_test_case c).test_cases = s.test_cases ++ [c]) ∧
    ((s.test_cases.map TestCaseClass.cid).Nodup →
      ((s.add_test_case c).test_cases.map TestCaseClass.cid).Nodup) := by
  refine ⟨fun h => ?_, fun h => ?_, fun h => ?_⟩
  · simp [TestSuite.add_test_case, h]
  · simp [TestSuite.add_test_case, h]
  · by_cases hmem : s.test_cases.any (fun x => x.cid = c.cid) = true
    · simp [TestSuite.add_test_case, hmem, h]
    · unfold TestSuite.add_test_case
      rw [if_neg hmem]
      simp only [List.map_append, List.map_cons, List.map_nil]
      rw [List.nodup_append]
      refine ⟨h, List.nodup_singleton _, ?_⟩
      intro a ha hb
      simp only [List.mem_singleton] at hb
      subst hb
      rcases List.mem_map.mp ha with ⟨x, hx, hxa⟩
      exact hmem (List.any_eq_true.mpr ⟨x, hx, decide_eq_true hxa⟩)

/-- Witness for C9 at a concrete suite: re-adding the contained class
(identity 5) leaves the suite unchanged. -/
theorem C9_add_test_case_witness :
    TestSuite.add_test_case
        { name := "S"
          description := ""
          test_cases := [⟨5, fun _ => Except.error "no controller"⟩]
          setup_hooks := []
          teardown_hooks := [] }
        ⟨5, fun _ => Except.error "no controller"⟩
      = { name := "S"
          description := ""
          test_cases := [⟨5, fun _ => Except.error "no controller"⟩]
          setup_hooks := []
          teardown_hooks := [] } := by
  exact (C9_add_test_case_idempotent _ _).1 rfl

theorem selectLoop_all_resolved (reg : Registry) (ctrl : Ctrl) (f : String → TCModel) :
    ∀ ids : List String,
      (∀ i ∈ ids, ∃ c, get_test_case reg i = some c ∧ run_test_case c ctrl = Except.ok (f i)) →
      (selectLoop reg ctrl ids).2.2.1 = ids.map f ∧
      (selectLoop reg ctrl ids).2.2.2 = Except.ok () := by
  intro ids
  induction ids with
  | nil => intro h; exact ⟨rfl, rfl⟩
  | cons i rest ih =>
    intro h
    obtain ⟨c, hc, hr⟩ := h i (List.mem_cons_self i rest)
    obtain ⟨h1, h2⟩ := ih (fun j hj => h j (List.mem_cons_of_mem i hj))
    simp [selectLoop, hc, hr, h1, h2]

theorem selectLoop_no_raise (reg : Registry) (ctrl : Ctrl) (f : String → TCModel) :
    ∀ ids : List String,
      (∀ i ∈ ids, ∀ c, get_test_case reg i = some c →
        run_test_case c ctrl = Except.ok (f i)) →
      selectLoop reg ctrl ids
        = ((ids.filter (fun i => (get_test_case reg i).isNone)).map notFoundWarning,
           ids.filterMap (fun i => get_test_case reg i),
           (ids.filter (fun i => (get_test_case reg i).isSome)).map f,
           Except.ok ()) := by
  intro ids
  induction ids with
  | nil => intro h; rfl
  | cons i rest ih =>
    intro h
    have hrest := ih (fun j hj => h j (List.mem_cons_of_mem i hj))
    cases hg : get_test_case reg i with
    | none => simp [selectLoop, hg, hrest, List.filter_cons, List.filterMap_cons]
    | some c =>
      have hr := h i (List.mem_cons_self i rest) c hg
      simp [selectLoop, hg, hr, hrest, List.filter_cons, List.filterMap_cons]

/-- C6: when every requested id resolves and the resolved case runs
normally, the `groupItems` of the TestGroup returned by
`run_selected_test_cases` are exactly the per-id results in the order of
the requested id list; the registry enters only through per-id lookup, so
registry iteration order is irrelevant. -/
theorem C6_selected_order (reg : Registry) (ids : List String) (ctrl : Ctrl)
    (f : String → TCModel)
    (h : ∀ i ∈ ids, ∃ c, get_test_case reg i = some c ∧
      run_test_case c ctrl = Except.ok (f i)) :
    ∃ g, (run_selected_test_cases reg ids ctrl).2 = Except.ok g ∧
      g.groupItems = ids.map f := by
  obtain ⟨h1, h2⟩ := selectLoop_all_resolved reg ctrl f ids h
  refine ⟨{ number := (derive_group_number (selectLoop reg ctrl ids).2.1).1
            name := "Selected Test Cases"
            description := "Test cases with IDs: " ++ String.intercalate ", " ids
            groupItems := ids.map f }, ?_, rfl⟩
  simp only [run_selected_test_cases, h2]
  rw [← h1]

/-- Fixtures for the C6 witness: a registry holding ids "001" and "002"
in that insertion order, with distinguishable results. -/
def model001 : TCModel :=
  ⟨"001", "TC001", "", ResultType.PASS, TestStatus.mandatory, []⟩

def model002 : TCModel :=
  ⟨"002", "TC002", "", ResultType.FAIL, TestStatus.mandatory, []⟩

def class001 : TestCaseClass :=
  ⟨11, fun _ => Except.ok ⟨"001", Except.ok model001⟩⟩

def class002 : TestCaseClass :=
  ⟨12, fun _ => Except.ok ⟨"002", Except.ok model002⟩⟩

def registry12 : Registry :=
  [("001", class001), ("002", class002)]

def pick12 : String → TCModel :=
  fun i => if i = "002" then model002 else model001

/-- Witness for C6 at the spec's example: requesting `["002", "001"]`
against a registry whose insertion order is "001" before "002" yields the
results in the requested order "002" then "001". -/
theorem C6_selected_order_witness :
    ∃ g, (run_selected_test_cases registry12 ["002", "001"] none).2 = Except.ok g ∧
      g.groupItems = [model002, model001] := by
  have hyp : ∀ i ∈ ["002", "001"], ∃ c, get_test_case registry12 i = some c ∧
      run_test_case c none = Except.ok (pick12 i) := by
    intro i hi
    fin_cases hi
    · exact ⟨class002, rfl, rfl⟩
    · exact ⟨class001, rfl, rfl⟩
  exact C6_selected_order registry12 ["002", "001"] none pick12 hyp

/-- C7: provided every id that does match runs normally, each requested
id with no Registry match is logged as exactly one warning (in request
order) and skipped, and the call returns normally — an unmatched id never
raises; the returned group holds only the matched ids' results, and when
no id matches the group number falls back to "0". -/
theorem C7_selected_miss (reg : Registry) (ids : List String) (ctrl : Ctrl)
    (f : String → TCModel)
    (h : ∀ i ∈ ids, ∀ c, get_test_case reg i = some c →
      run_test_case c ctrl = Except.ok (f i)) :
    run_selected_test_cases reg ids ctrl
      = ((ids.filter (fun i => (get_test_case reg i).isNone)).map notFoundWarning
           ++ (derive_group_number (ids.filterMap (fun i => get_test_case reg i))).2,
         Except.ok
           { number := (derive_group_number
               (ids.filterMap (fun i => get_test_case reg i))).1
             name := "Selected Test Cases"
             description := "Test cases with IDs: " ++ String.intercalate ", " ids
             groupItems := (ids.filter (fun i => (get_test_case reg i).isSome)).map f }) ∧
    ((∀ i ∈ ids, get_test_case reg i = none) →
      (derive_group_number (ids.filterMap (fun i => get_test_case reg i))).1 = "0") := by
  constructor
  · have hl := selectLoop_no_raise reg ctrl f ids h
    simp [run_selected_test_cases, hl]
  · intro hnone
    have hfm : ids.filterMap (fun i => get_test_case reg i) = [] :=
      List.filterMap_eq_nil_iff.mpr hnone
    rw [hfm]
    rfl

/-- Witness for C7 at the spec's example: `run_selected(["999"], ctrl)`
against an empty registry returns a TestGroup with zero `groupItems` and
group number "0" after logging exactly one warning, without raising. -/
theorem C7_selected_miss_witness :
    (run_selected_test_cases [] ["999"] none).1
        = [LogEvent.warning "Test case with ID 999 not found"] ∧
    (run_selected_test_cases [] ["999"] none).2
      = Except.ok { number := "0"
                    name := "Selected Test Cases"
                    description := "Test cases with IDs: 999"
                    groupItems := [] } := by
  have h := C7_selected_miss [] ["999"] none
      (fun _ => ⟨"", "", "", ResultType.PASS, TestStatus.optional, []⟩)
      (fun i _ c hc => nomatch hc)
  exact ⟨congrArg Prod.fst h.1, congrArg Prod.snd h.1⟩

theorem runSuitesLoop_all_ok (ctrl : Ctrl) :
    ∀ suites : List TestSuite,
      (∀ s ∈ suites, ∃ g, (run_test_suite s ctrl).outcome = Except.ok g) →
      ∃ gs, runSuitesLoop suites ctrl = (suites.map TestSuite.name, gs, Except.ok ()) ∧
        List.Forall₂ (fun s g => (run_test_suite s ctrl).outcome = Except.ok g) suites gs := by
  intro suites
  induction suites with
  | nil => intro h; exact ⟨[], rfl, List.Forall₂.nil⟩
  | cons s rest ih =>
    intro h
    obtain ⟨g, hg⟩ := h s (List.mem_cons_self s rest)
    obtain ⟨gs, hloop, hfa⟩ := ih (fun j hj => h j (List.mem_cons_of_mem s hj))
    refine ⟨g :: gs, ?_, List.Forall₂.cons hg hfa⟩
    simp [runSuitesLoop, hg, hloop]

/-- C8: with well-behaved global hooks, `run_all_test_suites` runs the
global setup hooks once in order, runs the global teardown hooks once in
order on every exit path (the teardown trace below is unconditional, so
it also covers an exception escaping any suite), and — when every suite
runs to completion — visits the suites in registry insertion order and
returns one TestGroup per suite, in that order. -/
theorem C8_run_all_hooks_and_order (suites : List TestSuite) (gsu gtd : List Hook)
    (ctrl : Ctrl)
    (hsu : ∀ g ∈ gsu, g.outcome = Except.ok ())
    (htd : ∀ g ∈ gtd, g.outcome = Except.ok ()) :
    (run_all_test_suites suites gsu gtd ctrl).globalSetupExecuted = gsu.map Hook.hid ∧
    (run_all_test_suites suites gsu gtd ctrl).globalTeardownExecuted = gtd.map Hook.hid ∧
    ((∀ s ∈ suites, ∃ g, (run_test_suite s ctrl).outcome = Except.ok g) →
      (run_all_test_suites suites gsu gtd ctrl).suitesExecuted
          = suites.map TestSuite.name ∧
      ∃ gs, (run_all_test_suites suites gsu gtd ctrl).outcome = Except.ok gs ∧
        List.Forall₂ (fun s g => (run_test_suite s ctrl).outcome = Except.ok g)
          suites gs) := by
  have hsu' := runHooks_all_ok gsu hsu
  have htd' := runHooks_all_ok gtd htd
  refine ⟨?_, ?_, fun hok => ?_⟩
  · simp [run_all_test_suites, hsu', htd']
  · simp [run_all_test_suites, hsu', htd']
  · obtain ⟨gs, hloop, hfa⟩ := runSuitesLoop_all_ok ctrl suites hok
    refine ⟨?_, gs, ?_, hfa⟩ <;> simp [run_all_test_suites, hsu', htd', hloop]

/-- Witness for C8 at a concrete input whose single suite raises (its
setup hook fails): the global setup hook ran once and the global teardown
hook still ran on this exceptional exit path. -/
theorem C8_run_all_witness :
    (run_all_test_suites [⟨"F", "", [], [⟨9, Except.error "suite blew up"⟩], []⟩]
        [⟨1, Except.ok ()⟩] [⟨2, Except.ok ()⟩] none).globalSetupExecuted = [1] ∧
    (run_all_test_suites [⟨"F", "", [], [⟨9, Except.error "suite blew up"⟩], []⟩]
        [⟨1, Except.ok ()⟩] [⟨2, Except.ok ()⟩] none).globalTeardownExecuted = [2] := by
  have h := C8_run_all_hooks_and_order
      [⟨"F", "", [], [⟨9, Except.error "suite blew up"⟩], []⟩]
      [⟨1, Except.ok ()⟩] [⟨2, Except.ok ()⟩] none
      (by intro g hg; fin_cases hg; rfl)
      (by intro g hg; fin_cases hg; rfl)
  exact ⟨h.1, h.2.1⟩

/-- C10: the base-class constructor builds a `tc_model` whose result is
FAIL and status optional, carrying exactly one "Generic metric" that is
itself FAIL with a single measurement of values `["None"]`; the
controller is stored exactly as given (so `None` is accepted), and a
constructed-but-never-run test case already carries a definite FAIL. -/
theorem C10_base_init_defaults (number name description : String) (controller : Ctrl) :
    (HybridMPlaneTestCase_init number name description controller).tc_model.result
        = ResultType.FAIL ∧
    (HybridMPlaneTestCase_init number name description controller).tc_model.status
        = TestStatus.optional ∧
    (HybridMPlaneTestCase_init number name description controller).tc_model.metrics
        = [{ description := "Generic metric"
             measurements :=
               [{ name := "Generic measurement", values := ["None"], units := Units.text }]
             status := TestStatus.optional
             result := ResultType.FAIL }] ∧
    (HybridMPlaneTestCase_init number name description controller).controller = controller :=
  ⟨rfl, rfl, rfl, rfl⟩

end HMP
